import Mathlib

/-!
Verification of the dify-openai-proxy translation core.

The repository contains two parallel implementations of the
`POST /v1/chat/completions` handler:

* `src/main.py` — a FastAPI handler (`chat_completions`, lines 58-143) plus the
  response converter `convert_dify_to_openai` (lines 145-201).  It reads its
  backend credential from the `DIFY_API_KEY` environment variable and never
  inspects the inbound `Authorization` header.
* `src/app.py` — a Flask handler (`chat_completions`, lines 19-92) that
  extracts the bearer credential from the inbound `Authorization` header and
  forwards it to the backend.

Both are embedded below as pure functions.  The outbound HTTP call is
abstracted as an oracle `post : OutboundReq → BackendCall`; each handler
result records the outbound request it sent (if any), so "no outbound call
was attempted" is expressible as `result.outbound = none`.
-/

namespace DifyProxy

/-!
### Python string primitives

The source calls Python string methods (`split()`, `strip()`, `replace`,
`startswith`, slicing, `join`).  They are modelled here by structurally
recursive functions over `List Char` so that every definition evaluates on
concrete inputs inside the kernel.
-/

/-- Accumulator pass behind Python `s.split()`: cut `cs` into the maximal
nonempty runs of non-whitespace characters (`acc` holds the current run,
reversed). -/
def pyWordsAux : List Char → List Char → List (List Char)
  | [], acc => if acc.isEmpty then [] else [acc.reverse]
  | c :: cs, acc =>
    if c.isWhitespace then
      if acc.isEmpty then pyWordsAux cs [] else acc.reverse :: pyWordsAux cs []
    else pyWordsAux cs (c :: acc)

/-- Python `s.split()` (no separator argument): whitespace runs separate the
words, and leading/trailing whitespace yields no empty words. -/
def pyWords (s : String) : List String :=
  (pyWordsAux s.data []).map String.mk

/-- Python `len(s.split())`, used at `src/main.py:171-172`. -/
def pyWordCount (s : String) : Nat :=
  (pyWords s).length

/-- Python `s.strip()`: drop whitespace from both ends. -/
def pyStrip (s : String) : String :=
  String.mk (((s.data.dropWhile Char.isWhitespace).reverse.dropWhile Char.isWhitespace).reverse)

/-- Python `s.startswith(p)`. -/
def pyStartsWith (s p : String) : Bool :=
  p.data.isPrefixOf s.data

/-- Fuel-bounded pass behind Python `s.replace(old, new)`: at each position,
if `old` (nonempty at the call sites) matches, emit `new` and skip the match,
else keep one character.  `fuel` starts at the length of the subject, which
suffices because every step consumes at least one character. -/
def pyReplaceAux (old new : List Char) : Nat → List Char → List Char
  | _, [] => []
  | 0, s => s
  | fuel + 1, c :: cs =>
    if old.isPrefixOf (c :: cs) then new ++ pyReplaceAux old new fuel ((c :: cs).drop old.length)
    else c :: pyReplaceAux old new fuel cs

/-- Python `s.replace(old, new)` for a nonempty `old`: replace every
(left-most, non-overlapping) occurrence. -/
def pyReplace (s old new : String) : String :=
  String.mk (pyReplaceAux old.data new.data s.data.length s.data)

/-- Python slicing `s[:n]`. -/
def pyTake (s : String) (n : Nat) : String :=
  String.mk (s.data.take n)

/-- Python `sep.join(parts)`. -/
def pyJoin (sep : String) : List String → String
  | [] => ""
  | [x] => x
  | x :: y :: rest => x ++ sep ++ pyJoin sep (y :: rest)

/-- A chat message, `class Message` of `src/main.py:33-35`; in `src/app.py`
messages are plain JSON objects with the same two fields. -/
structure Message where
  role : String
  content : String
deriving DecidableEq

/-- Inbound body, `class OpenAIChatCompletionRequest` of `src/main.py:37-43`.
`temperature` and `max_tokens` are omitted: neither handler ever reads them.
`stream` defaults to `False` in both sources. -/
structure OpenAIChatCompletionRequest where
  model : String
  messages : List Message
  stream : Bool := false
  user : Option String := none
deriving DecidableEq

/-- Outbound body, `class DifyChatMessageRequest` of `src/main.py:46-51`;
`src/app.py:38-44` builds the same shape as a dict.  The only key either
handler ever places in `inputs` is `system_prompt`, a string, so `inputs`
is modelled as an association list of strings.  `conversation_id := none`
models the `None` of `main.py` (dropped by `exclude_none`); `app.py` sends
the empty string explicitly. -/
structure DifyChatMessageRequest where
  inputs : List (String × String)
  query : String
  response_mode : String
  user : String
  conversation_id : Option String
deriving DecidableEq

/-- The nested `metadata.tokens` object read at `src/main.py:170-172`.
Every field is optional: the Python code reads each with `.get(key, default)`. -/
structure DifyTokens where
  prompt_tokens : Option Nat := none
  completion_tokens : Option Nat := none
  total_tokens : Option Nat := none
deriving DecidableEq

/-- The optional `metadata` object of a backend response body. -/
structure DifyMetadata where
  tokens : Option DifyTokens := none
deriving DecidableEq

/-- A parsed backend JSON body: exactly the fields either handler reads,
each optional because every access in the source is `.get` with a default.
`message` is the field read from error bodies at `src/main.py:122`. -/
structure DifyJson where
  answer : Option String := none
  conversation_id : Option String := none
  message_id : Option String := none
  created_at : Option Nat := none
  metadata : Option DifyMetadata := none
  message : Option String := none
deriving DecidableEq

/-- The `usage` object of an OpenAI-style completion response. -/
structure UsageInfo where
  prompt_tokens : Nat
  completion_tokens : Nat
  total_tokens : Nat
deriving DecidableEq

/-- One entry of `choices` in an OpenAI-style completion response. -/
structure Choice where
  index : Nat
  message : Message
  finish_reason : String
deriving DecidableEq

/-- An OpenAI-style completion response body, as built by
`convert_dify_to_openai` (`src/main.py:154-174`) and inline at
`src/app.py:68-86`. -/
structure OpenAIResponse where
  id : String
  object : String
  created : Nat
  model : String
  choices : List Choice
  usage : UsageInfo
deriving DecidableEq

/-- An HTTP reply from the backend: status, raw body text, and the parsed
JSON body (`none` models a body on which `.json()` raises). -/
structure HttpReply where
  status : Nat
  text : String
  json : Option DifyJson
deriving DecidableEq

/-- Outcome of one outbound HTTP call: either a reply or a transport-level
failure (`httpx.RequestError` in `main.py`, a `requests` exception in
`app.py`), carrying the exception text. -/
inductive BackendCall where
  | reply (r : HttpReply)
  | requestError (desc : String)
deriving DecidableEq

/-- The outbound request a handler hands to its HTTP client: target URL,
`Authorization` header value, and JSON body. -/
structure OutboundReq where
  url : String
  authHeader : String
  body : DifyChatMessageRequest
deriving DecidableEq

/-- `dify_response.get("metadata", {}).get("tokens", {})` of
`src/main.py:170-172`. -/
def difyTokens (dify_response : DifyJson) : DifyTokens :=
  (dify_response.metadata.getD {}).tokens.getD {}

/-- `convert_dify_to_openai` of `src/main.py:145-176`.  Every field access in
the Python body is a `.get` with a default (and the slice and `split` apply
to a string that is a string by construction), so for well-typed bodies with
any subset of fields missing the `except` fallback at lines 178-201 is
unreachable; the embedding is the (total) main path. -/
def convert_dify_to_openai (dify_response : DifyJson) (model : String) : OpenAIResponse :=
  let answer := dify_response.answer.getD ""
  let conversation_id := dify_response.conversation_id.getD ""
  let tokens := difyTokens dify_response
  { id := "chatcmpl-" ++ (if conversation_id = "" then "proxy" else pyTake conversation_id 16)
    object := "chat.completion"
    created := dify_response.created_at.getD 0
    model := model
    choices := [{ index := 0
                  message := { role := "assistant", content := answer }
                  finish_reason := "stop" }]
    usage := { prompt_tokens := tokens.prompt_tokens.getD 0
               completion_tokens := tokens.completion_tokens.getD (pyWordCount answer)
               total_tokens := tokens.total_tokens.getD (pyWordCount answer + 10) } }

/-! ## The FastAPI handler of `src/main.py` -/

/-- Process configuration of `src/main.py:18-20`. -/
structure MainConfig where
  DIFY_API_KEY : String
  DIFY_ENDPOINT : String := "https://www.nas.bestfuture.top/v1/chat-messages"
  DIFY_APP_ID : Option String := none
deriving DecidableEq

/-- What the FastAPI handler produces: a 200 `JSONResponse`, or an
`HTTPException` with a status code and a `detail` string (FastAPI renders the
latter as a JSON object with a single `detail` key — no `type` field). -/
inductive MainOutcome where
  | ok (resp : OpenAIResponse)
  | httpError (status : Nat) (detail : String)
deriving DecidableEq

/-- Result of one request through the FastAPI handler: the outcome plus the
outbound request actually sent (`none` when no outbound call was attempted). -/
structure MainResult where
  outcome : MainOutcome
  outbound : Option OutboundReq
deriving DecidableEq

/-- The HTTP status code the client sees. -/
def MainResult.status : MainResult → Nat
  | { outcome := .ok _, .. } => 200
  | { outcome := .httpError s _, .. } => s

/-- `src/main.py:73-77`: scan the messages in reverse; the first with
role `user` supplies the query. -/
def lastUserMessage (messages : List Message) : Option String :=
  (messages.reverse.find? (fun msg => msg.role == "user")).map (·.content)

/-- `src/main.py:89-93`: only when more than one message is present, collect
the system messages in order and, if any, join them with newlines under
`system_prompt`. -/
def mainInputs (messages : List Message) : List (String × String) :=
  if messages.length > 1 then
    if ((messages.filter (fun msg => msg.role == "system")).map (fun msg => msg.content)).isEmpty then []
    else [("system_prompt",
      pyJoin "\n" ((messages.filter (fun msg => msg.role == "system")).map (fun msg => msg.content)))]
  else []

/-- The `DifyChatMessageRequest` built at `src/main.py:83-93`: the query is
the last user message, `user` falls back to `openai-proxy-user` when the
inbound `user` is absent or empty (Python `or`), `response_mode` is the
hard-coded `"blocking"`, and `conversation_id` stays unset. -/
def mainDifyRequest (request : OpenAIChatCompletionRequest) (q : String) : DifyChatMessageRequest :=
  { inputs := mainInputs request.messages
    query := q
    response_mode := "blocking"
    user := match request.user with
            | some u => if u = "" then "openai-proxy-user" else u
            | none => "openai-proxy-user"
    conversation_id := none }

/-- `src/main.py:120-124`: the error message is the `message` field of the parsed body
field when the body parses as JSON, else the raw body text. -/
def mainErrorMsg (r : HttpReply) : String :=
  match r.json with
  | some j => j.message.getD r.text
  | none => r.text

/-- The outbound request assembled at `src/main.py:98-113`: the URL appends
the app id (the configured `DIFY_APP_ID` or, failing that, the model of the
request, line 105) to the configured endpoint, and the `Authorization` header
carries the configured `DIFY_API_KEY` (lines 99-102). -/
def mainOutboundReq (cfg : MainConfig) (request : OpenAIChatCompletionRequest)
    (q : String) : OutboundReq :=
  { url := cfg.DIFY_ENDPOINT ++ "/" ++ cfg.DIFY_APP_ID.getD request.model
    authHeader := "Bearer " ++ cfg.DIFY_API_KEY
    body := mainDifyRequest request q }

/-- The FastAPI `chat_completions` handler, `src/main.py:58-143`.

`_authHdr` models the inbound `Authorization` header available on
`raw_request`; the handler never reads it (there is no authentication check
in `main.py`) and authenticates the outbound call with the configured
`DIFY_API_KEY` instead (lines 99-102).

The `try` block spans lines 64-136.  `fastapi.HTTPException` subclasses
`Exception`, so every `HTTPException` raised inside the `try` — the 400s of
lines 70 and 80 and the upstream-status exception of lines 126-129 — is
caught by the blanket `except Exception` clause (lines 141-143) and re-raised
as status 500 with detail `"Internal server error: " + str(e)`, where
`str(e)` is `"<status>: <detail>"`.  Only the 502 raised inside the
`except httpx.RequestError` clause escapes (sibling `except` clauses do not
catch each other).  The `str` of a JSON decode failure at line 131 is
abstracted as a fixed marker; no claim depends on its text. -/
def mainHandler (cfg : MainConfig) (_authHdr : Option String)
    (request : OpenAIChatCompletionRequest) (post : OutboundReq → BackendCall) : MainResult :=
  if request.messages.isEmpty then
    { outcome := .httpError 500 "Internal server error: 400: No messages provided"
      outbound := none }
  else
    match lastUserMessage request.messages with
    | none =>
      { outcome := .httpError 500 "Internal server error: 400: No user message found"
        outbound := none }
    | some q =>
      match post (mainOutboundReq cfg request q) with
      | .requestError desc =>
        { outcome := .httpError 502 ("Upstream request failed: " ++ desc)
          outbound := some (mainOutboundReq cfg request q) }
      | .reply r =>
        if r.status ≠ 200 then
          { outcome := .httpError 500
              ("Internal server error: " ++ toString r.status ++ ": Dify API error: " ++ mainErrorMsg r)
            outbound := some (mainOutboundReq cfg request q) }
        else
          match r.json with
          | none =>
            { outcome := .httpError 500 "Internal server error: JSON decode failure"
              outbound := some (mainOutboundReq cfg request q) }
          | some j =>
            { outcome := .ok (convert_dify_to_openai j request.model)
              outbound := some (mainOutboundReq cfg request q) }

/-! ## The Flask handler of `src/app.py` -/

/-- Inbound body as read by `src/app.py:31-32`: `messages` (default `[]`)
and `stream` (default `False`); no other field is read. -/
structure AppRequest where
  messages : List Message
  stream : Bool := false
deriving DecidableEq

/-- The inner object of the `{"error": ...}` envelope built by
`src/app.py`. -/
structure ErrorBody where
  message : String
  type : String
  code : Nat
deriving DecidableEq

/-- What the Flask handler produces: a 200 JSON body, or an error envelope
returned with an HTTP status. -/
inductive AppOutcome where
  | ok (resp : OpenAIResponse)
  | err (status : Nat) (error : ErrorBody)
deriving DecidableEq

/-- Result of one request through the Flask handler. -/
structure AppResult where
  outcome : AppOutcome
  outbound : Option OutboundReq
deriving DecidableEq

/-- The HTTP status code the client sees. -/
def AppResult.status : AppResult → Nat
  | { outcome := .ok _, .. } => 200
  | { outcome := .err s _, .. } => s

/-- `src/app.py:26`: `auth_header.replace("Bearer ", "").strip()` — every
occurrence of `"Bearer "` is removed, then whitespace is stripped. -/
def appApiKey (auth_header : String) : String :=
  pyStrip (pyReplace auth_header "Bearer " "")

/-- `src/app.py:34-35`: the query is the last user-role message content, or
the empty string when there is none (no validation error is raised). -/
def appQuery (messages : List Message) : String :=
  let user_messages := (messages.filter (fun msg => msg.role == "user")).map (·.content)
  user_messages.getLast?.getD ""

/-- The dict built at `src/app.py:38-44`: empty `inputs` (system messages are
never consulted), `response_mode` chosen by the `stream` flag, a fresh
conversation, and the fixed user id `abc-123`. -/
def appDifyRequest (req : AppRequest) : DifyChatMessageRequest :=
  { inputs := []
    query := appQuery req.messages
    response_mode := if req.stream then "streaming" else "blocking"
    conversation_id := some ""
    user := "abc-123" }

/-- The outbound request assembled at `src/app.py:46-54`: the URL is the
configured base followed by `/chat-messages`, and the `Authorization` header
carries the credential extracted from the inbound header. -/
def appOutboundReq (base auth_header : String) (req : AppRequest) : OutboundReq :=
  { url := base ++ "/chat-messages"
    authHeader := "Bearer " ++ appApiKey auth_header
    body := appDifyRequest req }

/-- The Flask `chat_completions` handler, `src/app.py:19-92`.

`auth_header` is `request.headers.get("Authorization", "")`, so a missing
header arrives as `""`.  Transport failures of `requests.post` and JSON
decode failures both land in the single `except Exception` clause
(lines 90-92), producing a 500 `proxy_error` envelope; the decode-failure
text is abstracted as a fixed marker (no claim depends on it). -/
def appHandler (base : String) (auth_header : String) (req : AppRequest)
    (post : OutboundReq → BackendCall) : AppResult :=
  if ¬ pyStartsWith auth_header "Bearer " then
    { outcome := .err 401 { message := "Missing Authorization header"
                            type := "invalid_request_error", code := 401 }
      outbound := none }
  else
    if appApiKey auth_header = "" then
      { outcome := .err 401 { message := "API key required"
                              type := "invalid_request_error", code := 401 }
        outbound := none }
    else
      match post (appOutboundReq base auth_header req) with
      | .requestError desc =>
        { outcome := .err 500 { message := desc, type := "proxy_error", code := 500 }
          outbound := some (appOutboundReq base auth_header req) }
      | .reply r =>
        if r.status ≠ 200 then
          { outcome := .err r.status
              { message := "Dify API error: " ++ toString r.status ++ " - " ++ r.text
                type := "dify_api_error", code := r.status }
            outbound := some (appOutboundReq base auth_header req) }
        else
          match r.json with
          | none =>
            { outcome := .err 500 { message := "JSON decode failure"
                                    type := "proxy_error", code := 500 }
              outbound := some (appOutboundReq base auth_header req) }
          | some j =>
            { outcome := .ok
                { id := j.message_id.getD "dify-msg-unknown"
                  object := "chat.completion"
                  created := j.created_at.getD 0
                  model := "dify-app"
                  choices := [{ index := 0
                                message := { role := "assistant", content := j.answer.getD "" }
                                finish_reason := "stop" }]
                  usage := { prompt_tokens := 0, completion_tokens := 0, total_tokens := 0 } }
              outbound := some (appOutboundReq base auth_header req) }

/-- Usage synthesis exactly as claim C9 words it: when the metadata total is
absent, `total_tokens` is `completion_tokens + 10` (compare with the source,
which adds 10 to the whitespace word count of `answer` instead). -/
def usageSpecC9 (r : DifyJson) : UsageInfo :=
  let tk := difyTokens r
  let completion := tk.completion_tokens.getD (pyWordCount (r.answer.getD ""))
  { prompt_tokens := tk.prompt_tokens.getD 0
    completion_tokens := completion
    total_tokens := tk.total_tokens.getD (completion + 10) }

/-- Usage synthesis as the source computes it (`src/main.py:169-173`): each
fallback is taken from the whitespace word count of `answer`, independently
of the other metadata fields. -/
def usageSpecC9Amended (r : DifyJson) : UsageInfo :=
  let tk := difyTokens r
  { prompt_tokens := tk.prompt_tokens.getD 0
    completion_tokens := tk.completion_tokens.getD (pyWordCount (r.answer.getD ""))
    total_tokens := tk.total_tokens.getD (pyWordCount (r.answer.getD "") + 10) }

/-! ## Helper lemmas -/

/-- A list containing two distinct elements has length at least two. -/
theorem one_lt_length_of_two_mem {α : Type} {a b : α} {l : List α}
    (ha : a ∈ l) (hb : b ∈ l) (hne : a ≠ b) : 1 < l.length := by
  rcases l with _ | ⟨x, _ | ⟨y, t⟩⟩
  · simp at ha
  · simp at ha hb
    exact absurd (ha.trans hb.symm) hne
  · simp only [List.length_cons]
    omega

/-- A message list with a last user message is nonempty. -/
theorem lastUser_ne_nil {messages : List Message} {q : String}
    (hq : lastUserMessage messages = some q) : messages.isEmpty = false := by
  cases messages with
  | nil => simp [lastUserMessage] at hq
  | cons a l => rfl

/-- Once validation passes (a user message exists), the FastAPI handler always
performs the outbound call, targeting the configured endpoint and
authenticating with the configured `DIFY_API_KEY`. -/
theorem mainHandler_sends (cfg : MainConfig) (authHdr : Option String)
    (request : OpenAIChatCompletionRequest) (post : OutboundReq → BackendCall)
    (q : String) (hq : lastUserMessage request.messages = some q) :
    (mainHandler cfg authHdr request post).outbound =
      some (mainOutboundReq cfg request q) := by
  have hne := lastUser_ne_nil hq
  unfold mainHandler
  rw [if_neg (by simp [hne])]
  split
  · rename_i heq
    rw [hq] at heq
    exact absurd heq (by simp)
  · rename_i q2 heq
    rw [hq] at heq
    injection heq with heq2
    subst heq2
    split
    · rfl
    · split
      · rfl
      · split <;> rfl

/-- Whatever outbound request the FastAPI handler sends carries the configured
credential and the hard-coded blocking mode. -/
theorem mainHandler_outbound_fields (cfg : MainConfig) (authHdr : Option String)
    (request : OpenAIChatCompletionRequest) (post : OutboundReq → BackendCall)
    (out : OutboundReq) (h : (mainHandler cfg authHdr request post).outbound = some out) :
    out.authHeader = "Bearer " ++ cfg.DIFY_API_KEY ∧ out.body.response_mode = "blocking" := by
  unfold mainHandler at h
  split at h
  · simp at h
  · split at h
    · simp at h
    · split at h
      · simp only [Option.some.injEq] at h
        subst h
        exact ⟨rfl, rfl⟩
      · split at h
        · simp only [Option.some.injEq] at h
          subst h
          exact ⟨rfl, rfl⟩
        · split at h
          · simp only [Option.some.injEq] at h
            subst h
            exact ⟨rfl, rfl⟩
          · simp only [Option.some.injEq] at h
            subst h
            exact ⟨rfl, rfl⟩

/-- Once the auth check passes, the Flask handler always performs the outbound
call, forwarding the extracted credential. -/
theorem appHandler_sends (base auth_header : String) (req : AppRequest)
    (post : OutboundReq → BackendCall) (hs : pyStartsWith auth_header "Bearer " = true)
    (hk : appApiKey auth_header ≠ "") :
    (appHandler base auth_header req post).outbound =
      some (appOutboundReq base auth_header req) := by
  unfold appHandler
  rw [if_neg (by simp [hs])]
  rw [if_neg hk]
  split
  · rfl
  · split
    · rfl
    · split <;> rfl

/-- Whatever outbound request the Flask handler sends carries the credential
extracted from the inbound header, the stream-selected response mode, empty
inputs, and the last-user-message query. -/
theorem appHandler_outbound_fields (base auth_header : String) (req : AppRequest)
    (post : OutboundReq → BackendCall) (out : OutboundReq)
    (h : (appHandler base auth_header req post).outbound = some out) :
    out.authHeader = "Bearer " ++ appApiKey auth_header ∧
    out.body.response_mode = (if req.stream then "streaming" else "blocking") ∧
    out.body.inputs = [] ∧
    out.body.query = appQuery req.messages := by
  unfold appHandler at h
  split at h
  · simp at h
  · split at h
    · simp at h
    · split at h
      · simp only [Option.some.injEq] at h
        subst h
        exact ⟨rfl, rfl, rfl, rfl⟩
      · split at h
        · simp only [Option.some.injEq] at h
          subst h
          exact ⟨rfl, rfl, rfl, rfl⟩
        · split at h
          · simp only [Option.some.injEq] at h
            subst h
            exact ⟨rfl, rfl, rfl, rfl⟩
          · simp only [Option.some.injEq] at h
            subst h
            exact ⟨rfl, rfl, rfl, rfl⟩

/-! ## Claims -/

/-- C1: for every inbound message list containing at least one user-role
message, both request translations — the FastAPI reverse scan
(`lastUserMessage`, `src/main.py:73-77`) and the Flask filter-then-last
(`appQuery`, `src/app.py:34-35`) — set the backend query to the content of
the last user-role message, regardless of any preceding assistant or system
messages: the message list splits as `pre ++ m :: post` with `m` of role
user, nothing after `m` of role user, no constraint on `pre`, and both
selections return `m.content`. -/
theorem c1_query_is_last_user_message (messages : List Message)
    (h : ∃ m ∈ messages, m.role = "user") :
    ∃ (pre post : List Message) (m : Message),
      messages = pre ++ m :: post ∧ m.role = "user" ∧
      (∀ m2 ∈ post, m2.role ≠ "user") ∧
      lastUserMessage messages = some m.content ∧
      appQuery messages = m.content := by
  obtain ⟨mu, hmu, hmurole⟩ := h
  have hsome : (messages.reverse.find? (fun msg => msg.role == "user")).isSome := by
    rw [List.find?_isSome]
    exact ⟨mu, List.mem_reverse.mpr hmu, by simp [hmurole]⟩
  obtain ⟨m, hfind⟩ := Option.isSome_iff_exists.mp hsome
  obtain ⟨hpm, as, bs, hsplit, hall⟩ := List.find?_eq_some.mp hfind
  refine ⟨bs.reverse, as.reverse, m, ?_, ?_, ?_, ?_, ?_⟩
  · have h2 : messages.reverse.reverse = (as ++ m :: bs).reverse :=
      congrArg List.reverse hsplit
    rw [List.reverse_reverse] at h2
    rw [h2]
    simp [List.reverse_append]
  · have hb : (m.role == "user") = true := hpm
    exact eq_of_beq hb
  · intro m2 hm2
    have h3 : m2 ∈ as := List.mem_reverse.mp hm2
    have h4 := hall m2 h3
    simpa using h4
  · unfold lastUserMessage
    rw [hfind]
    rfl
  · show ((messages.filter (fun msg => msg.role == "user")).map
      (fun msg => msg.content)).getLast?.getD "" = m.content
    have h5 : (messages.filter (fun msg => msg.role == "user")).getLast? = some m := by
      rw [List.getLast?_eq_head?_reverse, ← List.filter_reverse, List.filter_head?, hfind]
    rw [List.getLast?_map, h5]
    rfl

/-- C1 witness: on the list system, user "a", assistant, user "c", both
translations pick the final user message. -/
theorem c1_witness :
    ∃ (pre post : List Message) (m : Message),
      [Message.mk "system" "s", Message.mk "user" "a",
       Message.mk "assistant" "b", Message.mk "user" "c"] = pre ++ m :: post ∧
      m.role = "user" ∧
      (∀ m2 ∈ post, m2.role ≠ "user") ∧
      lastUserMessage [Message.mk "system" "s", Message.mk "user" "a",
        Message.mk "assistant" "b", Message.mk "user" "c"] = some m.content ∧
      appQuery [Message.mk "system" "s", Message.mk "user" "a",
        Message.mk "assistant" "b", Message.mk "user" "c"] = m.content :=
  c1_query_is_last_user_message
    [Message.mk "system" "s", Message.mk "user" "a",
     Message.mk "assistant" "b", Message.mk "user" "c"] (by decide)

/-- C2 (code bug): for an inbound request with messages but no user-role
message, `src/main.py:80` raises `HTTPException(400, "No user message
found")`, but `fastapi.HTTPException` subclasses `Exception`, so the blanket
`except Exception` clause at line 141 catches it and re-raises status 500
with a plain `detail` string — the client receives 500, not 400, and no
`invalid_request_error` envelope; no outbound call is attempted (that part
of the claim holds). -/
theorem c2_no_user_message_gives_500 (cfg : MainConfig) (authHdr : Option String)
    (post : OutboundReq → BackendCall) :
    mainHandler cfg authHdr
      { model := "gpt-3.5-turbo"
        messages := [{ role := "system", content := "s" },
                     { role := "assistant", content := "hi" }] }
      post
      = { outcome := .httpError 500 "Internal server error: 400: No user message found"
          outbound := none } := rfl

/-- C8: the backend-to-OpenAI conversion `convert_dify_to_openai` is a total
function; for every backend body — including ones missing `answer`,
`conversation_id`, `created_at`, or `metadata` — it produces a well-formed
completion response with the documented defaults: object `chat.completion`,
the inbound model echoed, exactly one assistant choice with finish reason
`stop` carrying `answer` (default empty), id `chatcmpl-proxy` when the
conversation id is absent or empty, created 0 when `created_at` is absent,
and the synthesized usage when `metadata` is absent. -/
theorem c8_converter_total (r : DifyJson) (model : String) :
    (convert_dify_to_openai r model).object = "chat.completion" ∧
    (convert_dify_to_openai r model).model = model ∧
    (convert_dify_to_openai r model).choices =
      [{ index := 0
         message := { role := "assistant", content := r.answer.getD "" }
         finish_reason := "stop" }] ∧
    (r.answer = none → (convert_dify_to_openai r model).choices =
      [{ index := 0, message := { role := "assistant", content := "" }
         finish_reason := "stop" }]) ∧
    (r.conversation_id = none ∨ r.conversation_id = some "" →
      (convert_dify_to_openai r model).id = "chatcmpl-proxy") ∧
    (r.created_at = none → (convert_dify_to_openai r model).created = 0) ∧
    (r.metadata = none → (convert_dify_to_openai r model).usage =
      { prompt_tokens := 0
        completion_tokens := pyWordCount (r.answer.getD "")
        total_tokens := pyWordCount (r.answer.getD "") + 10 }) := by
  refine ⟨rfl, rfl, rfl, ?_, ?_, ?_, ?_⟩
  · intro ha
    simp [convert_dify_to_openai, ha]
  · intro hc
    rcases hc with hc | hc <;> simp [convert_dify_to_openai, hc]
  · intro hc
    simp [convert_dify_to_openai, hc]
  · intro hm
    simp [convert_dify_to_openai, difyTokens, hm]

/-- C8 witness: the conversion of the fully empty backend body carries all
the documented defaults. -/
theorem c8_witness :
    (convert_dify_to_openai {} "m").id = "chatcmpl-proxy" ∧
    (convert_dify_to_openai {} "m").created = 0 ∧
    (convert_dify_to_openai {} "m").usage =
      { prompt_tokens := 0, completion_tokens := pyWordCount ""
        total_tokens := pyWordCount "" + 10 } := by
  have h := c8_converter_total {} "m"
  exact ⟨h.2.2.2.2.1 (Or.inl rfl), h.2.2.2.2.2.1 rfl, h.2.2.2.2.2.2 rfl⟩

/-- C9 counterexample: with `metadata.tokens` supplying `completion_tokens`
5 but no `total_tokens`, and answer `a b c` (3 words), the source computes
`total_tokens = 3 + 10 = 13` — not `completion_tokens + 10 = 15` as the
claim states, so the conversion disagrees with the claim-worded usage
synthesis `usageSpecC9`. -/
theorem c9_counterexample :
    (convert_dify_to_openai
      { answer := some "a b c"
        metadata := some { tokens := some { completion_tokens := some 5 } } } "m").usage.completion_tokens = 5 ∧
    (convert_dify_to_openai
      { answer := some "a b c"
        metadata := some { tokens := some { completion_tokens := some 5 } } } "m").usage.total_tokens = 13 ∧
    ¬ ((convert_dify_to_openai
      { answer := some "a b c"
        metadata := some { tokens := some { completion_tokens := some 5 } } } "m").usage.total_tokens =
        (convert_dify_to_openai
      { answer := some "a b c"
        metadata := some { tokens := some { completion_tokens := some 5 } } } "m").usage.completion_tokens + 10) ∧
    ¬ ((convert_dify_to_openai
      { answer := some "a b c"
        metadata := some { tokens := some { completion_tokens := some 5 } } } "m").usage =
        usageSpecC9
          { answer := some "a b c"
            metadata := some { tokens := some { completion_tokens := some 5 } } }) := by
  decide

/-- C9 (amended): the converted usage equals `usageSpecC9Amended`:
`prompt_tokens` is the metadata count or 0, `completion_tokens` is the
metadata count or the whitespace word count of `answer`, and `total_tokens`
is the metadata total or the whitespace word count of `answer` plus 10 — the
total fallback uses the answer word count, not `completion_tokens`, so the
two coincide only when the metadata also lacks `completion_tokens`. -/
theorem c9_amended_usage (r : DifyJson) (model : String) :
    (convert_dify_to_openai r model).usage = usageSpecC9Amended r ∧
    (∀ t, (difyTokens r).total_tokens = some t →
      (convert_dify_to_openai r model).usage.total_tokens = t) ∧
    ((difyTokens r).total_tokens = none →
      (convert_dify_to_openai r model).usage.total_tokens =
        pyWordCount (r.answer.getD "") + 10) := by
  refine ⟨rfl, ?_, ?_⟩
  · intro t ht
    simp [convert_dify_to_openai, ht]
  · intro ht
    simp [convert_dify_to_openai, ht]

/-- C9 witness: on the counterexample input the metadata total is absent, so
the total falls back to the answer word count plus 10. -/
theorem c9_witness :
    (convert_dify_to_openai
      { answer := some "a b c"
        metadata := some { tokens := some { completion_tokens := some 5 } } } "m").usage.total_tokens =
      pyWordCount "a b c" + 10 := by
  have h := c9_amended_usage
    { answer := some "a b c"
      metadata := some { tokens := some { completion_tokens := some 5 } } } "m"
  exact h.2.2 rfl

/-- C10: on the backend response with answer `hello`, conversation id
`abcdef0123456789xyz` and created_at 1000, with inbound model `m`, the
conversion yields exactly the documented response: id is `chatcmpl-` plus
the first 16 characters of the conversation id, one assistant choice with
content `hello` and finish reason `stop`, and usage 0 / 1 / 11. -/
theorem c10_concrete_round_trip :
    convert_dify_to_openai
      { answer := some "hello", conversation_id := some "abcdef0123456789xyz"
        created_at := some 1000 } "m" =
      { id := "chatcmpl-abcdef0123456789", object := "chat.completion"
        created := 1000, model := "m"
        choices := [{ index := 0
                      message := { role := "assistant", content := "hello" }
                      finish_reason := "stop" }]
        usage := { prompt_tokens := 0, completion_tokens := 1, total_tokens := 11 } } := by
  decide

/-- C3 counterexample: the FastAPI handler performs no authorization check —
with the `Authorization` header missing (`none`) it still calls the backend
and returns 200, not 401. -/
theorem c3_counterexample :
    (mainHandler { DIFY_API_KEY := "server-env-key" } none
      { model := "m", messages := [{ role := "user", content := "hi" }] }
      (fun _ => .reply { status := 200, text := "ok"
                         json := some { answer := some "hello" } })).status = 200 ∧
    (mainHandler { DIFY_API_KEY := "server-env-key" } none
      { model := "m", messages := [{ role := "user", content := "hi" }] }
      (fun _ => .reply { status := 200, text := "ok"
                         json := some { answer := some "hello" } })).outbound.isSome = true ∧
    (200 : Nat) ≠ 401 := by
  decide

/-- C3 (amended): the Flask handler (`src/app.py:22-28`) returns 401 with an
`invalid_request_error` envelope and attempts no outbound call whenever the
`Authorization` header does not start with `Bearer ` (a missing header
arrives as the empty string) or the credential left after stripping is
empty; the FastAPI handler (`src/main.py`) never inspects the header and,
once a user message exists, always proceeds to the outbound call using its
configured environment credential. -/
theorem c3_amended_auth :
    (∀ (base auth_header : String) (req : AppRequest) (post : OutboundReq → BackendCall),
      (¬ pyStartsWith auth_header "Bearer " = true ∨ appApiKey auth_header = "") →
      (appHandler base auth_header req post).status = 401 ∧
      (appHandler base auth_header req post).outbound = none) ∧
    (∀ (cfg : MainConfig) (request : OpenAIChatCompletionRequest)
        (post : OutboundReq → BackendCall) (q : String),
      lastUserMessage request.messages = some q →
      (mainHandler cfg none request post).outbound.isSome = true) := by
  constructor
  · intro base auth_header req post h
    by_cases hs : pyStartsWith auth_header "Bearer " = true
    · have hk : appApiKey auth_header = "" := by
        rcases h with h | h
        · exact absurd hs h
        · exact h
      constructor
      · simp [appHandler, hs, hk, AppResult.status]
      · simp [appHandler, hs, hk]
    · constructor
      · simp [appHandler, hs, AppResult.status]
      · simp [appHandler, hs]
  · intro cfg request post q hq
    rw [mainHandler_sends cfg none request post q hq]
    rfl

/-- C3 witness: a request with no `Authorization` header (the empty string)
is rejected with 401 by the Flask handler before any outbound call. -/
theorem c3_witness :
    (appHandler "b" "" { messages := [] } (fun _ => .requestError "down")).status = 401 ∧
    (appHandler "b" "" { messages := [] } (fun _ => .requestError "down")).outbound = none :=
  c3_amended_auth.1 "b" "" { messages := [] } (fun _ => .requestError "down")
    (Or.inl (by decide))

/-- C4 counterexample: with inbound credential `caller-key` and configured
environment key `server-env-key`, the FastAPI handler authenticates the
outbound call with `Bearer server-env-key` — its own configured credential,
not the one the caller presented. -/
theorem c4_counterexample :
    ((mainHandler { DIFY_API_KEY := "server-env-key" } (some "Bearer caller-key")
      { model := "m", messages := [{ role := "user", content := "hi" }] }
      (fun _ => .requestError "down")).outbound.map (fun o => o.authHeader)) =
      some "Bearer server-env-key" ∧
    "Bearer server-env-key" ≠ "Bearer caller-key" := by
  decide

/-- C4 (amended): every outbound request the Flask handler sends carries the
bearer credential extracted from the inbound `Authorization` header, while
every outbound request the FastAPI handler sends carries the configured
`DIFY_API_KEY` — so credential pass-through holds for `src/app.py` and fails
for `src/main.py`, which always substitutes its own configured credential. -/
theorem c4_amended_credential :
    (∀ (base auth_header : String) (req : AppRequest)
        (post : OutboundReq → BackendCall) (out : OutboundReq),
      (appHandler base auth_header req post).outbound = some out →
      out.authHeader = "Bearer " ++ appApiKey auth_header) ∧
    (∀ (cfg : MainConfig) (authHdr : Option String)
        (request : OpenAIChatCompletionRequest)
        (post : OutboundReq → BackendCall) (out : OutboundReq),
      (mainHandler cfg authHdr request post).outbound = some out →
      out.authHeader = "Bearer " ++ cfg.DIFY_API_KEY) := by
  constructor
  · intro base auth_header req post out h
    exact (appHandler_outbound_fields base auth_header req post out h).1
  · intro cfg authHdr request post out h
    exact (mainHandler_outbound_fields cfg authHdr request post out h).1

/-- C4 witness: with inbound header `Bearer k` the outbound call of the
Flask handler carries exactly the extracted credential. -/
theorem c4_witness :
    ∃ out, (appHandler "https://api.dify.ai/v1" "Bearer k"
        { messages := [{ role := "user", content := "hi" }] }
        (fun _ => .requestError "down")).outbound = some out ∧
      out.authHeader = "Bearer " ++ appApiKey "Bearer k" := by
  refine ⟨appOutboundReq "https://api.dify.ai/v1" "Bearer k"
    { messages := [{ role := "user", content := "hi" }] }, rfl, ?_⟩
  exact c4_amended_credential.1 "https://api.dify.ai/v1" "Bearer k"
    { messages := [{ role := "user", content := "hi" }] }
    (fun _ => .requestError "down") _ rfl

/-- C5 counterexample: with `stream := true` the FastAPI handler still sends
`response_mode` `blocking` (`src/main.py:86` hard-codes it). -/
theorem c5_counterexample :
    ((mainHandler { DIFY_API_KEY := "k" } (some "Bearer c")
      { model := "m", messages := [{ role := "user", content := "hi" }], stream := true }
      (fun _ => .requestError "down")).outbound.map (fun o => o.body.response_mode)) =
      some "blocking" ∧
    "blocking" ≠ "streaming" := by
  decide

/-- C5 (amended): the Flask handler sets the outbound `response_mode` to
`streaming` when the inbound `stream` flag is true and `blocking` when it is
false; the FastAPI handler sends `blocking` unconditionally, ignoring the
`stream` flag. -/
theorem c5_amended_response_mode :
    (∀ (base auth_header : String) (req : AppRequest)
        (post : OutboundReq → BackendCall) (out : OutboundReq),
      (appHandler base auth_header req post).outbound = some out →
      out.body.response_mode = (if req.stream then "streaming" else "blocking")) ∧
    (∀ (cfg : MainConfig) (authHdr : Option String)
        (request : OpenAIChatCompletionRequest)
        (post : OutboundReq → BackendCall) (out : OutboundReq),
      (mainHandler cfg authHdr request post).outbound = some out →
      out.body.response_mode = "blocking") := by
  constructor
  · intro base auth_header req post out h
    exact (appHandler_outbound_fields base auth_header req post out h).2.1
  · intro cfg authHdr request post out h
    exact (mainHandler_outbound_fields cfg authHdr request post out h).2

/-- C5 witness: with `stream := true` the Flask handler sends
`response_mode` `streaming`. -/
theorem c5_witness :
    ∃ out, (appHandler "b" "Bearer k"
        { messages := [{ role := "user", content := "hi" }], stream := true }
        (fun _ => .requestError "down")).outbound = some out ∧
      out.body.response_mode = "streaming" := by
  refine ⟨appOutboundReq "b" "Bearer k"
    { messages := [{ role := "user", content := "hi" }], stream := true }, rfl, ?_⟩
  have h := c5_amended_response_mode.1 "b" "Bearer k"
    { messages := [{ role := "user", content := "hi" }], stream := true }
    (fun _ => .requestError "down") _ rfl
  simpa using h

/-- C6 counterexample: the Flask handler sends an empty `inputs` object even
when a system message is present — the system prompt `S` is discarded, so
`inputs` does not hold the claimed `system_prompt` entry. -/
theorem c6_counterexample :
    ((appHandler "b" "Bearer k"
      { messages := [{ role := "system", content := "S" },
                     { role := "user", content := "hi" }] }
      (fun _ => .requestError "down")).outbound.map (fun o => o.body.inputs)) =
      some [] ∧
    (([] : List (String × String)) ≠ [("system_prompt", "S")]) := by
  decide

/-- C6 (amended): for inbound message lists containing at least one user
message, the FastAPI translation (`src/main.py:89-93`) fills
`inputs.system_prompt` with the newline-joined contents of the system
messages in original order whenever at least one system message exists, and
leaves `inputs` empty otherwise (the `len(messages) > 1` guard is vacuous in
the presence of both a system and a user message); the Flask handler always
sends empty `inputs`, discarding system messages. -/
theorem c6_amended_system_prompt (messages : List Message)
    (h : ∃ m ∈ messages, m.role = "user") :
    ((messages.filter (fun msg => msg.role == "system")).map (fun msg => msg.content) ≠ [] →
      mainInputs messages =
        [("system_prompt",
          pyJoin "\n" ((messages.filter (fun msg => msg.role == "system")).map
            (fun msg => msg.content)))]) ∧
    ((messages.filter (fun msg => msg.role == "system")).map (fun msg => msg.content) = [] →
      mainInputs messages = []) := by
  constructor
  · intro hsys
    have hfil : messages.filter (fun msg => msg.role == "system") ≠ [] := by
      intro hnil
      exact hsys (by rw [hnil]; rfl)
    obtain ⟨ms, hms⟩ := List.exists_mem_of_ne_nil _ hfil
    obtain ⟨hin, hrole⟩ := List.mem_filter.mp hms
    obtain ⟨mu, hmu, hmurole⟩ := h
    have hrole2 : ms.role = "system" := by simpa using hrole
    have hne2 : mu ≠ ms := by
      intro he
      rw [he, hrole2] at hmurole
      exact absurd hmurole (by decide)
    have hlen : 1 < messages.length := one_lt_length_of_two_mem hmu hin hne2
    unfold mainInputs
    rw [if_pos hlen, if_neg (by simpa using hsys)]
  · intro hsys
    unfold mainInputs
    split
    · rw [if_pos (by simp [hsys])]
    · rfl

/-- C6 witness: two system messages and a user message produce the joined
system prompt. -/
theorem c6_witness :
    mainInputs [{ role := "system", content := "A" }, { role := "system", content := "B" },
                { role := "user", content := "q" }] = [("system_prompt", "A\nB")] := by
  have h := c6_amended_system_prompt
    [{ role := "system", content := "A" }, { role := "system", content := "B" },
     { role := "user", content := "q" }] (by decide)
  exact h.1 (by decide)

/-- C7 counterexample: on a backend 429 with body `rate limited`, the Flask
handler returns the status verbatim with a message containing the status and
body — but the envelope type is `dify_api_error`, not the claimed
`upstream_error`. -/
theorem c7_counterexample :
    (appHandler "b" "Bearer k" { messages := [{ role := "user", content := "hi" }] }
      (fun _ => .reply { status := 429, text := "rate limited", json := none })).outcome =
      .err 429 { message := "Dify API error: 429 - rate limited"
                 type := "dify_api_error", code := 429 } ∧
    "dify_api_error" ≠ "upstream_error" := by
  decide

/-- C7 (amended): whenever the backend returns a non-2xx status, the Flask
handler returns the backend status code verbatim (as HTTP status and as
envelope code) with envelope type `dify_api_error` and message
`Dify API error: <status> - <body>`, which contains the backend status and
raw body text; the FastAPI handler instead raises
`HTTPException(status, ...)` that its own blanket `except Exception`
swallows, so the client receives a 500 internal error whose detail embeds
the backend status and error message. -/
theorem c7_amended_upstream :
    (∀ (base auth_header : String) (req : AppRequest) (r : HttpReply),
      pyStartsWith auth_header "Bearer " = true →
      appApiKey auth_header ≠ "" →
      ¬ (200 ≤ r.status ∧ r.status < 300) →
      (appHandler base auth_header req (fun _ => .reply r)).outcome =
        .err r.status { message := "Dify API error: " ++ toString r.status ++ " - " ++ r.text
                        type := "dify_api_error", code := r.status } ∧
      (appHandler base auth_header req (fun _ => .reply r)).status = r.status) ∧
    (∀ (cfg : MainConfig) (authHdr : Option String)
        (request : OpenAIChatCompletionRequest) (q : String) (r : HttpReply),
      lastUserMessage request.messages = some q →
      ¬ (200 ≤ r.status ∧ r.status < 300) →
      (mainHandler cfg authHdr request (fun _ => .reply r)).outcome =
        .httpError 500 ("Internal server error: " ++ toString r.status ++
          ": Dify API error: " ++ mainErrorMsg r)) := by
  constructor
  · intro base auth_header req r hs hk h3
    have h200 : r.status ≠ 200 := fun he => h3 (by omega)
    constructor
    · simp [appHandler, hs, hk, h200]
    · simp [appHandler, hs, hk, h200, AppResult.status]
  · intro cfg authHdr request q r hq h3
    have h200 : r.status ≠ 200 := fun he => h3 (by omega)
    have hne := lastUser_ne_nil hq
    simp [mainHandler, hne, hq, h200]

/-- C7 witness: a backend 503 with body `oops` maps to a 503
`dify_api_error` envelope with the status and body in the message. -/
theorem c7_witness :
    (appHandler "b" "Bearer k" { messages := [] }
      (fun _ => .reply { status := 503, text := "oops", json := none })).outcome =
      .err 503 { message := "Dify API error: 503 - oops"
                 type := "dify_api_error", code := 503 } :=
  (c7_amended_upstream.1 "b" "Bearer k" { messages := [] }
    { status := 503, text := "oops", json := none }
    (by decide) (by decide) (by decide)).1

end DifyProxy
